import Mathlib

/-!
Shallow embedding of the label-terminology resolution and task/subset
segmentation-result reconciliation engine of the CADS Slicer module
(`src/CADS/CADS.py`, class `CADSLogic`).  Pure data transformations are
translated to Lean functions; the Slicer scene graph, the terminology
lookup service, the per-task label dictionary, the filesystem glob and
the labelmap `ReadData` import are external collaborators and appear as
explicit parameters (gathered in `Env`).  Python exceptions become
`Except String`; side effects become explicit event/effect traces.
-/

namespace CADS

/-- One code triple of a CSV row: the three sub-columns
`.CodingSchemeDesignator`, `.CodeValue`, `.CodeMeaning` of a code field
(missing columns are read as the empty string by `getCodeString`). -/
structure CodeTriple where
  codingSchemeDesignator : String
  codeValue : String
  codeMeaning : String
deriving DecidableEq

/-- `'^'.join(getCodeString(field, columnNames, row))` in
`loadCADSLabelTerminology`. -/
def codeString (c : CodeTriple) : String :=
  c.codingSchemeDesignator ++ "^" ++ c.codeValue ++ "^" ++ c.codeMeaning

/-- The code fields of one row of `cads_snomed_mapping.csv` that
`loadCADSLabelTerminology` reads. -/
structure CsvRow where
  structureName : String
  segmentedPropertyCategoryCode : CodeTriple
  segmentedPropertyTypeCode : CodeTriple
  segmentedPropertyTypeModifierCode : CodeTriple
  anatomicRegionCode : CodeTriple
  anatomicRegionModifierCode : CodeTriple
deriving DecidableEq

/-- `terminologyEntryStrWithoutCategoryName` built in
`loadCADSLabelTerminology` (CADS.py lines 550-563). -/
def terminologyEntryStrWithoutCategoryName (row : CsvRow) : String :=
  "~" ++ codeString row.segmentedPropertyCategoryCode
  ++ "~" ++ codeString row.segmentedPropertyTypeCode
  ++ "~" ++ codeString row.segmentedPropertyTypeModifierCode
  ++ "~Anatomic codes - DICOM master list"
  ++ "~" ++ codeString row.anatomicRegionCode
  ++ "~" ++ codeString row.anatomicRegionModifierCode
  ++ "|"

/-- `self.cadsTerminologyPropertyTypes` as assigned in `CADSLogic.__init__`
(CADS.py line 488).  It is never reassigned or read anywhere else in the
module. -/
def cadsTerminologyPropertyTypes : List String := []

/-- The terminology string stored for a row's structure name
(CADS.py line 611): the context-name prefix is the literal
`"Segmentation category and type - CADS"`, unconditionally. -/
def rowTerminologyStr (row : CsvRow) : String :=
  "Segmentation category and type - CADS" ++ terminologyEntryStrWithoutCategoryName row

/-- One value of the `self.cadsLabelTerminology` dict: the synthesized
terminology string and the resolved Slicer display label. -/
structure TermInfo where
  terminologyStr : String
  slicerLabel : String
deriving DecidableEq

/-- `self.cadsLabelTerminology`: structure name keyed association list. -/
abbrev Catalog := List (String × TermInfo)

/-- Dict lookup `self.cadsLabelTerminology[structure_name]`. -/
def lookupTerm (cat : Catalog) (structureName : String) : Option TermInfo :=
  (cat.find? (fun p => p.1 == structureName)).map Prod.snd

/-- `CADSLogic.getSlicerLabel`: display label of a structure, or the raw
structure name when unmapped. -/
def getSlicerLabel (cat : Catalog) (structureName : String) : String :=
  match lookupTerm cat structureName with
  | some info => info.slicerLabel
  | none => structureName

/-- `CADSLogic.getStructureName`: reverse lookup by linear scan, returning
the input unchanged when no entry's display label matches. -/
def getStructureName (cat : Catalog) (slicerLabel : String) : String :=
  match cat.find? (fun p => p.2.slicerLabel == slicerLabel) with
  | some p => p.1
  | none => slicerLabel

/-- A per-task label dictionary `map_taskid_to_labelmaps[task_id]`:
label value to structure name, in dict (insertion) order. -/
abbrev LabelMap := List (Int × String)

/-- The subset filter of `CADSLogic.readSegmentation` (CADS.py line 1423):
`{k: v for k, v in labelValueToSegmentName.items() if self.getSlicerLabel(v) in subset}`. -/
def filterBySubset (cat : Catalog) (m : LabelMap) (subset : List String) : LabelMap :=
  m.filter (fun kv => subset.contains (getSlicerLabel cat kv.2))

end CADS

namespace CADS

/-- Concrete CSV row used to exhibit the terminology-context bug:
its type code `SCT^64033007` is not a member of
`cadsTerminologyPropertyTypes` (which is empty). -/
def kidneyLeftRow : CsvRow :=
  { structureName := "kidney_left"
    segmentedPropertyCategoryCode := ⟨"SCT", "123037004", "Anatomical Structure"⟩
    segmentedPropertyTypeCode := ⟨"SCT", "64033007", "Kidney"⟩
    segmentedPropertyTypeModifierCode := ⟨"SCT", "7771000", "Left"⟩
    anatomicRegionCode := ⟨"", "", ""⟩
    anatomicRegionModifierCode := ⟨"", "", ""⟩ }

namespace Resolve

/-- RGB color scaled to `[0,1]` floats in the code; modelled exactly as
rationals (`rgb/255.0` is an exact division of small integers). -/
abbrev Color := ℚ × ℚ × ℚ

/-- A terminology type modifier as enumerated by the terminology logic
(`vtkSlicerTerminologyType` used as a modifier). -/
structure TermModifier where
  codingSchemeDesignator : String
  codeValue : String
  slicerLabel : String
  codeMeaning : String
  rgb : ℕ × ℕ × ℕ
deriving DecidableEq

/-- A terminology type in a category, together with its modifiers, as
enumerated by the terminology logic. -/
structure TermTypeObject where
  codingSchemeDesignator : String
  codeValue : String
  slicerLabel : String
  codeMeaning : String
  rgb : ℕ × ℕ × ℕ
  modifiers : List TermModifier
deriving DecidableEq

/-- A deserialized terminology entry (`vtkSlicerTerminologyEntry`): the
type's coding scheme designator and code value, and the modifier's, an
empty modifier code value meaning "no modifier" (the code tests
`GetTypeModifierObject()` truthiness and `GetCodeValue()` nonemptiness). -/
structure TerminologyEntry where
  typeSchemeDesignator : String
  typeCodeValue : String
  modifierSchemeDesignator : String
  modifierCodeValue : String
deriving DecidableEq

/-- `labelColorFromTypeObject` of `getSegmentLabelColor`, for a type. -/
def labelColorFromTypeObject (t : TermTypeObject) : String × Color :=
  (if t.slicerLabel ≠ "" then t.slicerLabel else t.codeMeaning,
   ((t.rgb.1 : ℚ) / 255, (t.rgb.2.1 : ℚ) / 255, (t.rgb.2.2 : ℚ) / 255))

/-- `labelColorFromTypeObject` of `getSegmentLabelColor`, for a modifier. -/
def labelColorFromModifier (m : TermModifier) : String × Color :=
  (if m.slicerLabel ≠ "" then m.slicerLabel else m.codeMeaning,
   ((m.rgb.1 : ℚ) / 255, (m.rgb.2.1 : ℚ) / 255, (m.rgb.2.2 : ℚ) / 255))

/-- The inner modifier loop of `getSegmentLabelColor`: first modifier whose
coding scheme designator and code value both match the entry's. -/
def findModifier (entry : TerminologyEntry) (mods : List TermModifier) :
    Option TermModifier :=
  mods.find? (fun m =>
    m.codingSchemeDesignator == entry.modifierSchemeDesignator &&
    m.codeValue == entry.modifierCodeValue)

/-- The type loop of `CADSLogic.getSegmentLabelColor` (CADS.py 652-675)
over the types the terminology logic enumerates in the entry's category:
skip types whose scheme or code value differ; when the entry carries a
modifier, return the matching modifier's label/color and keep scanning
types when no modifier matches; otherwise return the type's label/color.
The fall-through raises `RuntimeError("Color was not found ...")`. -/
def getSegmentLabelColorLoop (entry : TerminologyEntry) (s : String) :
    List TermTypeObject → Except String (String × Color)
  | [] => .error ("Color was not found for terminology " ++ s)
  | t :: rest =>
    if t.codingSchemeDesignator ≠ entry.typeSchemeDesignator then
      getSegmentLabelColorLoop entry s rest
    else if t.codeValue ≠ entry.typeCodeValue then
      getSegmentLabelColorLoop entry s rest
    else if entry.modifierCodeValue ≠ "" then
      match findModifier entry t.modifiers with
      | some m => .ok (labelColorFromModifier m)
      | none => getSegmentLabelColorLoop entry s rest
    else .ok (labelColorFromTypeObject t)

/-- `CADSLogic.getSegmentLabelColor`: deserialize the terminology string
(via the external terminology logic, modelled by `deser`), then walk the
types of the entry's category (modelled by `types`).  Deserialization
failure raises `RuntimeError("Failed to deserialize ...")`. -/
def getSegmentLabelColor (deser : String → Option TerminologyEntry)
    (types : List TermTypeObject) (terminologyEntryStr : String) :
    Except String (String × Color) :=
  match deser terminologyEntryStr with
  | none => .error ("Failed to deserialize terminology string: " ++ terminologyEntryStr)
  | some entry => getSegmentLabelColorLoop entry terminologyEntryStr types

end Resolve

/-- A segment of a segmentation container: name, color, and string tags
(the external `vtkSegment` surface used by the code: `SetTag`, `SetName`,
`SetColor`). -/
structure Segment where
  name : String
  color : Resolve.Color
  tags : List (String × String)
deriving DecidableEq

/-- A segmentation container: segment-ID keyed association list. -/
structure Segmentation where
  segments : List (String × Segment)
deriving DecidableEq

/-- `segmentation.GetSegmentation().GetSegment(segmentId)`. -/
def getSegment (s : Segmentation) (segmentId : String) : Option Segment :=
  (s.segments.find? (fun p => p.1 == segmentId)).map Prod.snd

/-- Replace the segment stored under `segmentId` (in-place mutation of the
`vtkSegment` in the container). -/
def updateSegment (s : Segmentation) (segmentId : String) (seg : Segment) :
    Segmentation :=
  ⟨s.segments.map (fun p => if p.1 == segmentId then (p.1, seg) else p)⟩

/-- `segment.GetTerminologyEntryTagName()` — a constant of the external
scene-graph library. -/
def terminologyEntryTagName : String := "TerminologyEntry"

/-- `segment.SetTag(key, value)`. -/
def setTag (seg : Segment) (key value : String) : Segment :=
  { seg with tags := (key, value) :: seg.tags.filter (fun p => p.1 ≠ key) }

/-- `segment.GetTag`-style lookup. -/
def getTag (seg : Segment) (key : String) : Option String :=
  (seg.tags.find? (fun p => p.1 == key)).map Prod.snd

/-- `CADSLogic.setTerminology` (CADS.py 1485-1499): when the segment is
present and the structure name is in the catalog, set the terminology tag;
then attempt `getSegmentLabelColor`; on success set the name to the
resolved label when `useStandardSegmentNames` is set and always set the
color; on `RuntimeError` log the message and leave name and color as they
were.  Returns the updated container and the logged messages. -/
def setTerminology (cat : Catalog) (useStandardSegmentNames : Bool)
    (deser : String → Option Resolve.TerminologyEntry)
    (types : List Resolve.TermTypeObject)
    (segmentation : Segmentation) (segmentName segmentId : String) :
    Segmentation × List String :=
  match getSegment segmentation segmentId with
  | none => (segmentation, [])
  | some seg =>
    match lookupTerm cat segmentName with
    | none => (segmentation, [])
    | some info =>
      let seg1 := setTag seg terminologyEntryTagName info.terminologyStr
      match Resolve.getSegmentLabelColor deser types info.terminologyStr with
      | .ok (label, color) =>
        let seg2 := if useStandardSegmentNames then { seg1 with name := label } else seg1
        let seg3 := { seg2 with color := color }
        (updateSegment segmentation segmentId seg3, [])
      | .error e => (updateSegment segmentation segmentId seg1, [e])

/-- Strip leading and trailing whitespace from a character list (the
whitespace stripping Python `int` performs on its argument). -/
def pyStrip (s : List Char) : List Char :=
  ((s.dropWhile (fun c => c.isWhitespace)).reverse.dropWhile
    (fun c => c.isWhitespace)).reverse

/-- Python `int(s)` on a string: optional surrounding whitespace, optional
sign, at least one digit; `none` models the `ValueError`. -/
def pyInt (s : String) : Option Int :=
  let t := pyStrip s.data
  let signed : Bool × List Char :=
    match t with
    | '-' :: rest => (true, rest)
    | '+' :: rest => (false, rest)
    | _ => (false, t)
  if signed.2 ≠ [] ∧ signed.2.all (fun c => c.isDigit) then
    let n : Nat := signed.2.foldl (fun acc c => acc * 10 + (c.toNat - 48)) 0
    some (if signed.1 then -(n : Int) else (n : Int))
  else none

/-- Python `min(iterable)` over integer keys (`None` models the
`ValueError` on an empty iterable). -/
def pyMin : List Int → Option Int
  | [] => none
  | a :: l => some (l.foldl min a)

/-- Python `max(iterable)` over integer keys. -/
def pyMax : List Int → Option Int
  | [] => none
  | a :: l => some (l.foldl max a)

/-- Observable side effects of per-task result reading and volume
processing. -/
inductive Event where
  | log (msg : String)
  | addColorTable (name : String) (numberOfColors : Int)
  | importLabelmap (file : String)
  | removeSegment (segmentId : String)
  | writeInputFile
deriving DecidableEq

/-- External collaborators consumed by the engine: the loaded terminology
catalog and flag from the logic object, the terminology lookup service
(`deser`, `termTypes`), the per-task label dictionary
(`map_taskid_to_labelmaps`), the filesystem glob for
`*{task}*.nii.gz` (in glob result order), and the storage node's
`ReadData` labelmap import. -/
structure Env where
  cat : Catalog
  useStandardSegmentNames : Bool
  deser : String → Option Resolve.TerminologyEntry
  termTypes : List Resolve.TermTypeObject
  labelmapsFor : Int → Option LabelMap
  globFor : String → List String
  readData : Segmentation → String → Segmentation

/-- Outcome of `readSegmentation`: the Python return value, the emitted
side effects, and the destination container's final contents. -/
structure ReadResult where
  returnValue : Bool
  events : List Event
  segmentation : Segmentation
deriving DecidableEq

/-- The found-artifact tail of `readSegmentation` (CADS.py 1441-1483),
with `f :: rest` the glob matches: warn when several candidates were
found, use the first match `f`, build the transient color table sized
`maxLabelValue+1`, import the labelmap, remove imported segments whose
identity is not a retained structure name, and apply terminology to every
retained label value in mapping order. -/
def readSegmentationFound (env : Env) (outputSegmentation : Segmentation)
    (task : String) (labelValueToSegmentName : LabelMap) (maxLabelValue : Int)
    (f : String) (rest : List String) : ReadResult :=
  let warnEvents : List Event :=
    if rest.isEmpty then []
    else
      Event.log ("Warning: Multiple segmentation files found for task "
          ++ task ++ ":")
        :: ((f :: rest).map (fun g => Event.log ("  - " ++ g))
          ++ [Event.log ("Using the first file: " ++ f)])
  let imported := env.readData outputSegmentation f
  let values := labelValueToSegmentName.map Prod.snd
  let removedIds :=
    (imported.segments.map Prod.fst).filter (fun sid => !(values.contains sid))
  let afterRemove : Segmentation :=
    ⟨imported.segments.filter (fun p => values.contains p.1)⟩
  let final := labelValueToSegmentName.foldl
    (fun (acc : Segmentation × List Event) kv =>
      let r := setTerminology env.cat env.useStandardSegmentNames env.deser
        env.termTypes acc.1 kv.2 kv.2
      (r.1, acc.2 ++ r.2.map Event.log))
    (afterRemove, [])
  ⟨true,
   warnEvents
     ++ [Event.addColorTable task (maxLabelValue + 1),
         Event.importLabelmap f]
     ++ removedIds.map Event.removeSegment
     ++ final.2,
   final.1⟩

/-- `CADSLogic.readSegmentation` from the `maxLabelValue` computation on
(CADS.py 1428-1483), applied to the (already subset-filtered) label
mapping: validate non-negative label values, glob for the artifact
(zero matches: report and return `False`; several: warn and use the first),
then continue with `readSegmentationFound`. -/
def readSegmentationCore (env : Env) (outputSegmentation : Segmentation)
    (task : String) (labelValueToSegmentName : LabelMap) :
    Except String ReadResult :=
  match pyMax (labelValueToSegmentName.map Prod.fst) with
  | none => .error "max() arg is an empty sequence"
  | some maxLabelValue =>
    if (pyMin (labelValueToSegmentName.map Prod.fst)).getD 0 < 0 then
      .error "Label values in class_map must be positive"
    else
      match env.globFor task with
      | [] =>
        .ok ⟨false,
             [.log ("Error: No segmentation file found for task " ++ task)],
             outputSegmentation⟩
      | f :: rest => .ok (readSegmentationFound env outputSegmentation task
          labelValueToSegmentName maxLabelValue f rest)

/-- `CADSLogic.readSegmentation` (CADS.py 1416-1483): fetch the task's
label dictionary, apply the subset filter when a subset is supplied
(returning `False` on an empty result), then continue with
`readSegmentationCore`. -/
def readSegmentation (env : Env) (outputSegmentation : Segmentation)
    (task : String) (subset : Option (List String)) :
    Except String ReadResult :=
  match pyInt task with
  | none => .error ("invalid literal for int() with base 10: " ++ task)
  | some taskId =>
    match env.labelmapsFor taskId with
    | none => .error ("KeyError: " ++ toString taskId)
    | some labelValueToSegmentName =>
      match subset with
      | some s =>
        let filtered := filterBySubset env.cat labelValueToSegmentName s
        if filtered.isEmpty then
          .ok ⟨false,
               [.log ("Task " ++ task
                  ++ ": No selected targets were found in the label map, skipping...")],
               outputSegmentation⟩
        else readSegmentationCore env outputSegmentation task filtered
      | none => readSegmentationCore env outputSegmentation task labelValueToSegmentName

/-- A segmentation node of the scene: identity, name, attributes and
segment contents (`vtkMRMLSegmentationNode`). -/
structure SegNode where
  id : Nat
  name : String
  attrs : List (String × String)
  seg : Segmentation
deriving DecidableEq

/-- `CADSLogic.processVolume` (CADS.py 1349-1398): write the input file,
launch the external program, then read the result; an explicit `False`
from `readSegmentation` yields the empty result list, otherwise the
destination node is returned as a one-element list. -/
def processVolume (env : Env) (node : SegNode) (task : String)
    (subset : Option (List String)) :
    Except String (List SegNode × List Event) :=
  match readSegmentation env node.seg task subset with
  | .error e => .error e
  | .ok r =>
    if r.returnValue then
      .ok ([{ node with seg := r.segmentation }], Event.writeInputFile :: r.events)
    else
      .ok ([], Event.writeInputFile :: r.events)

/-- One entry of `self.tasks`. -/
structure TaskInfo where
  title : String
  subtasks : List String
deriving DecidableEq

/-- `self.tasks` as built by `CADSLogic._defineAvailableTasks`
(CADS.py 502-515), in insertion order. -/
def tasks : List (String × TaskInfo) :=
  [("551", ⟨"Core organs", []⟩),
   ("552", ⟨"Spine complete", []⟩),
   ("553", ⟨"Heart & vessels", []⟩),
   ("554", ⟨"Trunk muscles", []⟩),
   ("555", ⟨"Ribs complete", []⟩),
   ("556", ⟨"RT risk organs", []⟩),
   ("557", ⟨"Brain tissues", []⟩),
   ("558", ⟨"Head-neck organs", []⟩),
   ("559", ⟨"Body regions", []⟩),
   ("all", ⟨"All",
     ["551", "552", "553", "554", "555", "556", "557", "558", "559"]⟩)]

/-- Dict lookup `self.tasks[taskId]` (as an option). -/
def lookupTask (taskId : String) : Option TaskInfo :=
  (tasks.find? (fun p => p.1 == taskId)).map Prod.snd

/-- `self.tasks[subtask]['title']` (every looked-up id is present). -/
def taskTitle (taskId : String) : String :=
  ((lookupTask taskId).map TaskInfo.title).getD ""

/-- `self.tasks['all']['subtasks']`. -/
def subtasksAll : List String :=
  ((lookupTask "all").map TaskInfo.subtasks).getD []

/-- `node.SetAttribute(key, value)` on the attribute table. -/
def setAttr (attrs : List (String × String)) (key value : String) :
    List (String × String) :=
  (key, value) :: attrs.filter (fun p => p.1 ≠ key)

/-- Fuel-driven helper for Python `str.replace` over character lists (the
fuel is the input length; each step consumes at least one character). -/
def pyReplaceAux : Nat → List Char → List Char → List Char → List Char
  | 0, s, _, _ => s
  | _ + 1, [], _, _ => []
  | fuel + 1, c :: s, pat, repl =>
    if pat.isPrefixOf (c :: s) && !pat.isEmpty then
      repl ++ pyReplaceAux fuel ((c :: s).drop pat.length) pat repl
    else c :: pyReplaceAux fuel s pat repl

/-- Python `str.replace(pat, repl)` (all occurrences). -/
def pyReplace (s pat repl : List Char) : List Char :=
  pyReplaceAux s.length s pat repl

/-- `baseName = outputSegmentation.GetName().replace(" segmentation", "")`
(CADS.py 1313). -/
def segBaseName (node : SegNode) : String :=
  (pyReplace node.name.data " segmentation".data []).asString

/-- The per-subtask destination container of `_processAllTasks`
(CADS.py 1314-1328): subtask `0` reuses the supplied node renamed to
`"{baseName}: {taskTitle}"`; every later subtask gets a freshly created
node (fresh identity, empty contents) with that name; both get the
`CADS.TaskID` and `CADS.TaskTitle` attributes. -/
def subtaskNode (orig : SegNode) (baseName : String) (i : Nat) (t : String) :
    SegNode :=
  let title := taskTitle t
  let taskName := baseName ++ ": " ++ title
  let base : SegNode :=
    if i = 0 then { orig with name := taskName }
    else { id := orig.id + 1 + i, name := taskName, attrs := [], seg := ⟨[]⟩ }
  { base with attrs := setAttr (setAttr base.attrs "CADS.TaskID" t) "CADS.TaskTitle" title }

/-- The subtask loop of `_processAllTasks` (CADS.py 1314-1345): process
each subtask in order against its container, extend the accumulated node
list with each subtask's result list, and propagate exceptions. -/
def runSubtasks (env : Env) (orig : SegNode) (baseName : String)
    (subset : Option (List String)) :
    Nat → List String → Except String (List SegNode)
  | _, [] => .ok []
  | i, t :: rest =>
    match processVolume env (subtaskNode orig baseName i t) t subset with
    | .error e => .error e
    | .ok (nodes, _) =>
      match runSubtasks env orig baseName subset (i + 1) rest with
      | .error e => .error e
      | .ok more => .ok (nodes ++ more)

/-- `CADSLogic._processAllTasks` (CADS.py 1287-1347). -/
def processAllTasks (env : Env) (outputSegmentation : SegNode)
    (subset : Option (List String)) : Except String (List SegNode) :=
  runSubtasks env outputSegmentation (segBaseName outputSegmentation) subset
    0 subtasksAll

/-- Side effects of the top-level `process` call that the claims track:
log lines, the temporary working folder creation (CADS.py 1231) and the
input volume write. -/
inductive Effect where
  | log (msg : String)
  | createTempFolder
  | writeInputFile
deriving DecidableEq

/-- `CADSLogic.process` (CADS.py 1191-1285): input/task/subset
validation (raising before any side effect), then the temporary folder
creation and dispatch to `_processAllTasks` or `processVolume`.  The two
`except` clauses of the validation section catch the very `ValueError`s
raised inside their own `try` blocks, so the registered-task failure and
the invalid-organs failure surface with the generic re-raised messages. -/
def process (env : Env) (inputVolume : Bool) (outputSegmentation : SegNode)
    (_cpu : Bool) (task : Option String) (subset : Option (List String)) :
    Except String (List SegNode) × List Effect :=
  if inputVolume = false then (.error "Input volume is invalid", [])
  else
    match task with
    | none => (.error "Task ID must be specified", [])
    | some t =>
      if t = "" then (.error "Task ID must be specified", [])
      else
        match
          (if t = "all" then Except.ok ()
           else
             match pyInt t with
             | none =>
               Except.error ("Invalid task ID format: " ++ t
                 ++ ". Must be a number or 'all'")
             | some taskId =>
               if (lookupTask (toString taskId)).isSome then Except.ok ()
               else
                 Except.error ("Invalid task ID format: " ++ t
                   ++ ". Must be a number or 'all'")) with
        | .error e => (.error e, [])
        | .ok _ =>
          match
            (match subset with
             | none => Except.ok ()
             | some s =>
               if s.isEmpty then Except.ok ()
               else
                 match pyInt t with
                 | none => Except.error ("Cannot validate subset for task: " ++ t)
                 | some taskId =>
                   match env.labelmapsFor taskId with
                   | none => Except.error ("Cannot validate subset for task: " ++ t)
                   | some m =>
                     if (s.filter (fun organ =>
                          !((m.map Prod.snd).contains organ))).isEmpty then
                       Except.ok ()
                     else
                       Except.error ("Cannot validate subset for task: " ++ t)) with
          | .error e => (.error e, [])
          | .ok _ =>
            let effects : List Effect :=
              [.log "Processing started", .createTempFolder, .writeInputFile]
            if t = "all" then
              match processAllTasks env outputSegmentation subset with
              | .error e => (.error e, effects)
              | .ok nodes => (.ok nodes, effects)
            else
              match processVolume env outputSegmentation t subset with
              | .error e => (.error e, effects)
              | .ok (nodes, _) => (.ok nodes, effects)

end CADS

/-- C2: the claim says the terminology-context prefix is chosen by a
membership test of the row's type code in the set of property types the
model's terminology defines, that set being computed once up front.  In the
code, `cadsTerminologyPropertyTypes` is initialized empty, never populated
and never consulted, and the stored terminology string uses the
model-defined context `"Segmentation category and type - CADS"` for every
row — including `kidneyLeftRow`, whose type code fails the membership
test. -/
theorem c2_terminology_context_never_branches :
    CADS.cadsTerminologyPropertyTypes = [] ∧
    CADS.cadsTerminologyPropertyTypes.contains "SCT^64033007" = false ∧
    CADS.rowTerminologyStr CADS.kidneyLeftRow =
      "Segmentation category and type - CADS~SCT^123037004^Anatomical Structure~SCT^64033007^Kidney~SCT^7771000^Left~Anatomic codes - DICOM master list~^^~^^|" ∧
    (∀ row : CADS.CsvRow, CADS.rowTerminologyStr row =
      "Segmentation category and type - CADS" ++ CADS.terminologyEntryStrWithoutCategoryName row) :=
  ⟨rfl, rfl, rfl, fun _ => rfl⟩

/-- C3: the subset filter retains exactly the entries of the original
mapping whose structure name's display label is in the subset: membership
in `filterBySubset cat m S` is equivalent to membership in `m` (same key,
same structure name) together with the display label being in `S`. -/
theorem c3_filter_by_subset_spec (cat : CADS.Catalog) (m : CADS.LabelMap)
    (S : List String) (kv : Int × String) :
    kv ∈ CADS.filterBySubset cat m S ↔
      kv ∈ m ∧ CADS.getSlicerLabel cat kv.2 ∈ S := by
  simp [CADS.filterBySubset, List.mem_filter]

namespace CADS

/-- List form of the lookup-after-replace fact used for `updateSegment`. -/
theorem find?_map_update (segmentId : String) (seg' : Segment) :
    ∀ l : List (String × Segment),
      (l.find? (fun p => p.1 == segmentId)).isSome = true →
      ((l.map (fun p => if p.1 == segmentId then (p.1, seg') else p)).find?
          (fun p => p.1 == segmentId)).map Prod.snd = some seg'
  | [], h => by simp at h
  | p :: t, h => by
    obtain ⟨a, b⟩ := p
    cases hp : (a == segmentId) with
    | true =>
      have ha : a = segmentId := by simpa using hp
      subst ha
      simp [List.find?_cons]
    | false =>
      have ha : ¬(a = segmentId) := by simpa using hp
      have ht : (t.find? (fun q => q.1 == segmentId)).isSome = true := by
        simpa [List.find?_cons, hp] using h
      simpa [List.find?_cons, hp, ha] using find?_map_update segmentId seg' t ht

/-- Looking up a segment after replacing it: when a segment with the given
id exists, the replacement is what the subsequent lookup finds. -/
theorem getSegment_updateSegment (s : Segmentation) (segmentId : String)
    (seg' : Segment)
    (h : (s.segments.find? (fun p => p.1 == segmentId)).isSome = true) :
    getSegment (updateSegment s segmentId seg') segmentId = some seg' := by
  unfold getSegment updateSegment
  exact find?_map_update segmentId seg' s.segments h

end CADS

/-- C9: whenever the structure name of a retained label value is in the
loaded catalog and its segment is present in the container,
`setTerminology` sets the segment's terminology tag to the synthesized
terminology string; when `getSegmentLabelColor` succeeds the segment is
always recolored to the resolved RGB and renamed to the resolved label
exactly when `useStandardSegmentNames` is set; when resolution fails the
error is logged and the segment keeps its prior name and color. -/
theorem c9_set_terminology_behavior (cat : CADS.Catalog) (useStd : Bool)
    (deser : String → Option CADS.Resolve.TerminologyEntry)
    (types : List CADS.Resolve.TermTypeObject)
    (segm : CADS.Segmentation) (segmentName segmentId : String)
    (seg : CADS.Segment) (info : CADS.TermInfo)
    (h1 : CADS.getSegment segm segmentId = some seg)
    (h2 : CADS.lookupTerm cat segmentName = some info) :
    ∃ seg',
      CADS.getSegment
        (CADS.setTerminology cat useStd deser types segm segmentName segmentId).1
        segmentId = some seg' ∧
      CADS.getTag seg' CADS.terminologyEntryTagName = some info.terminologyStr ∧
      (∀ label color,
        CADS.Resolve.getSegmentLabelColor deser types info.terminologyStr
            = .ok (label, color) →
          seg'.color = color ∧
          seg'.name = (if useStd then label else seg.name) ∧
          (CADS.setTerminology cat useStd deser types segm segmentName segmentId).2 = []) ∧
      (∀ e,
        CADS.Resolve.getSegmentLabelColor deser types info.terminologyStr
            = .error e →
          seg'.name = seg.name ∧ seg'.color = seg.color ∧
          (CADS.setTerminology cat useStd deser types segm segmentName segmentId).2 = [e]) := by
  have hsome : (segm.segments.find? (fun p => p.1 == segmentId)).isSome = true := by
    unfold CADS.getSegment at h1
    cases hf : segm.segments.find? (fun p => p.1 == segmentId) <;>
      simp [hf] at h1 ⊢
  cases hres : CADS.Resolve.getSegmentLabelColor deser types info.terminologyStr with
  | ok lc =>
    obtain ⟨label, color⟩ := lc
    refine ⟨{ (if useStd then
                { CADS.setTag seg CADS.terminologyEntryTagName info.terminologyStr
                    with name := label }
              else
                CADS.setTag seg CADS.terminologyEntryTagName info.terminologyStr)
              with color := color }, ?_, ?_, ?_, ?_⟩
    · simp only [CADS.setTerminology, h1, h2, hres]
      exact CADS.getSegment_updateSegment segm segmentId _ hsome
    · cases useStd <;> simp [CADS.getTag, CADS.setTag, List.find?]
    · intro label' color' h
      simp only [Except.ok.injEq, Prod.mk.injEq] at h
      obtain ⟨rfl, rfl⟩ := h
      refine ⟨rfl, ?_, ?_⟩
      · cases useStd <;> simp [CADS.setTag]
      · simp [CADS.setTerminology, h1, h2, hres]
    · intro e h
      exact Except.noConfusion h
  | error e =>
    refine ⟨CADS.setTag seg CADS.terminologyEntryTagName info.terminologyStr,
      ?_, ?_, ?_, ?_⟩
    · simp only [CADS.setTerminology, h1, h2, hres]
      exact CADS.getSegment_updateSegment segm segmentId _ hsome
    · simp [CADS.getTag, CADS.setTag, List.find?]
    · intro label' color' h
      exact Except.noConfusion h
    · intro e' h
      injection h with he
      subst he
      refine ⟨by simp [CADS.setTag], by simp [CADS.setTag], ?_⟩
      simp [CADS.setTerminology, h1, h2, hres]

namespace CADS

/-- Folding `min` never exceeds the initial accumulator. -/
theorem foldl_min_le_init : ∀ (l : List Int) (a : Int), l.foldl min a ≤ a
  | [], a => le_refl a
  | b :: t, a => le_trans (foldl_min_le_init t (min a b)) (min_le_left a b)

/-- Folding `min` never exceeds any list member. -/
theorem foldl_min_le_mem : ∀ (l : List Int) (a x : Int), x ∈ l → l.foldl min a ≤ x
  | [], _, x, hx => absurd hx (List.not_mem_nil x)
  | b :: t, a, x, hx => by
    rcases List.mem_cons.mp hx with rfl | hx'
    · exact le_trans (foldl_min_le_init t (min a x)) (min_le_right a x)
    · exact foldl_min_le_mem t (min a b) x hx'

/-- Python `min` of a list bounds every member from below. -/
theorem pyMin_getD_le (l : List Int) (x : Int) (hx : x ∈ l) :
    (pyMin l).getD 0 ≤ x := by
  cases l with
  | nil => exact absurd hx (List.not_mem_nil x)
  | cons b t =>
    rcases List.mem_cons.mp hx with rfl | hx'
    · exact foldl_min_le_init t x
    · exact foldl_min_le_mem t b x hx'

/-- A nonempty key list has a Python `max`. -/
theorem pyMax_isSome_of_ne_nil (l : List Int) (h : l ≠ []) :
    ∃ mx, pyMax l = some mx := by
  cases l with
  | nil => exact absurd rfl h
  | cons b t => exact ⟨t.foldl max b, rfl⟩

end CADS

/-- C4: when the subset filter of a task's label mapping comes back empty,
`readSegmentation` returns `False` (no exception) with only the skip log
emitted, the destination container untouched and no labelmap import
attempted, and `processVolume` turns this into an empty result list. -/
theorem c4_empty_filter_skips (env : CADS.Env) (node : CADS.SegNode)
    (task : String) (S : List String) (taskId : Int) (m : CADS.LabelMap)
    (h1 : CADS.pyInt task = some taskId)
    (h2 : env.labelmapsFor taskId = some m)
    (h3 : CADS.filterBySubset env.cat m S = []) :
    CADS.readSegmentation env node.seg task (some S) =
      .ok ⟨false,
           [CADS.Event.log ("Task " ++ task
              ++ ": No selected targets were found in the label map, skipping...")],
           node.seg⟩ ∧
    CADS.processVolume env node task (some S) =
      .ok ([], [CADS.Event.writeInputFile,
                CADS.Event.log ("Task " ++ task
                  ++ ": No selected targets were found in the label map, skipping...")]) ∧
    (∀ f, CADS.Event.importLabelmap f ∉
      [CADS.Event.writeInputFile,
       CADS.Event.log ("Task " ++ task
         ++ ": No selected targets were found in the label map, skipping...")]) := by
  have hread : CADS.readSegmentation env node.seg task (some S) =
      .ok ⟨false,
           [CADS.Event.log ("Task " ++ task
              ++ ": No selected targets were found in the label map, skipping...")],
           node.seg⟩ := by
    simp [CADS.readSegmentation, h1, h2, h3]
  refine ⟨hread, ?_, ?_⟩
  · simp [CADS.processVolume, hread]
  · intro f
    simp

/-- Witness for C4: concrete environment whose catalog maps `kidney_left`
to display label `Kidney`, with the subset `["Liver"]` matching nothing. -/
theorem c4_empty_filter_skips_witness :
    CADS.readSegmentation
      ⟨[("kidney_left", ⟨"TSTR", "Kidney"⟩)], true, fun _ => none, [],
        fun taskId => if taskId = 551 then some [(1, "kidney_left")] else none,
        fun _ => ["s_551.nii.gz"], fun s _ => s⟩
      (⟨0, "Output", [], ⟨[]⟩⟩ : CADS.SegNode).seg "551" (some ["Liver"]) =
      .ok ⟨false,
           [CADS.Event.log ("Task " ++ "551"
              ++ ": No selected targets were found in the label map, skipping...")],
           (⟨0, "Output", [], ⟨[]⟩⟩ : CADS.SegNode).seg⟩ ∧
    CADS.processVolume
      ⟨[("kidney_left", ⟨"TSTR", "Kidney"⟩)], true, fun _ => none, [],
        fun taskId => if taskId = 551 then some [(1, "kidney_left")] else none,
        fun _ => ["s_551.nii.gz"], fun s _ => s⟩
      ⟨0, "Output", [], ⟨[]⟩⟩ "551" (some ["Liver"]) =
      .ok ([], [CADS.Event.writeInputFile,
                CADS.Event.log ("Task " ++ "551"
                  ++ ": No selected targets were found in the label map, skipping...")]) ∧
    (∀ f, CADS.Event.importLabelmap f ∉
      [CADS.Event.writeInputFile,
       CADS.Event.log ("Task " ++ "551"
         ++ ": No selected targets were found in the label map, skipping...")]) :=
  c4_empty_filter_skips _ _ "551" ["Liver"] 551 [(1, "kidney_left")]
    (by decide) rfl (by decide)

namespace CADS

/-- Label mapping with a negative key, for exercising the negative-label
check of `readSegmentation`. -/
def negKeyMap : LabelMap := [(-1, "bad_structure"), (1, "kidney_left")]

/-- Environment whose task `551` label dictionary is `negKeyMap` and whose
glob finds exactly one artifact. -/
def negKeyEnv : Env :=
  { cat := []
    useStandardSegmentNames := true
    deser := fun _ => none
    termTypes := []
    labelmapsFor := fun taskId => if taskId = 551 then some negKeyMap else none
    globFor := fun _ => ["case1_551_seg.nii.gz"]
    readData := fun s _ =>
      ⟨s.segments ++ [("kidney_left", ⟨"kidney_left", (0, 0, 0), []⟩)]⟩ }

end CADS

/-- C6 counterexample: `negKeyMap` contains the negative label value `-1`,
yet with the subset `["kidney_left"]` (which filters the negative entry
out) `readSegmentation` does not fail — it completes with `True`.  The
claim's "regardless of which subset is supplied" is false: the negativity
check runs on the subset-filtered mapping, after filtering. -/
theorem c6_counterexample :
    ((-1 : Int), "bad_structure") ∈ CADS.negKeyMap ∧
    ((-1 : Int) < 0) ∧
    CADS.negKeyEnv.labelmapsFor 551 = some CADS.negKeyMap ∧
    CADS.readSegmentation CADS.negKeyEnv ⟨[]⟩ "551" (some ["kidney_left"]) =
      .ok ⟨true,
           [CADS.Event.addColorTable "551" 2,
            CADS.Event.importLabelmap "case1_551_seg.nii.gz"],
           ⟨[("kidney_left", ⟨"kidney_left", (0, 0, 0), []⟩)]⟩⟩ := by
  refine ⟨by simp [CADS.negKeyMap], by norm_num, rfl, ?_⟩
  rfl

/-- C6 amended: per-task result reading fails with the
`"Label values in class_map must be positive"` error exactly on the
mapping it actually checks — the subset-filtered mapping (the raw mapping
when no subset is supplied).  A negative key retained by the filter (or
present with no subset) raises the error; a subset that filters every
negative key out avoids it (see the counterexample). -/
theorem c6_negative_label_space_error (env : CADS.Env)
    (seg : CADS.Segmentation) (task : String) (taskId : Int) (m : CADS.LabelMap)
    (h1 : CADS.pyInt task = some taskId)
    (h2 : env.labelmapsFor taskId = some m) :
    (∀ S kv, kv ∈ CADS.filterBySubset env.cat m S → kv.1 < 0 →
      CADS.readSegmentation env seg task (some S) =
        .error "Label values in class_map must be positive") ∧
    (∀ kv, kv ∈ m → kv.1 < 0 →
      CADS.readSegmentation env seg task none =
        .error "Label values in class_map must be positive") := by
  constructor
  · intro S kv hkv hneg
    have hne : CADS.filterBySubset env.cat m S ≠ [] := by
      intro h0
      rw [h0] at hkv
      exact absurd hkv (List.not_mem_nil kv)
    have hkey : kv.1 ∈ (CADS.filterBySubset env.cat m S).map Prod.fst :=
      List.mem_map_of_mem Prod.fst hkv
    have hmin : (CADS.pyMin ((CADS.filterBySubset env.cat m S).map Prod.fst)).getD 0 < 0 :=
      lt_of_le_of_lt (CADS.pyMin_getD_le _ _ hkey) hneg
    obtain ⟨mx, hmax⟩ :=
      CADS.pyMax_isSome_of_ne_nil ((CADS.filterBySubset env.cat m S).map Prod.fst)
        (by simpa using hne)
    have hempty : (CADS.filterBySubset env.cat m S).isEmpty = false := by
      cases hf : CADS.filterBySubset env.cat m S with
      | nil => exact absurd hf hne
      | cons b t => rfl
    simp only [CADS.readSegmentation, h1, h2, hempty, Bool.false_eq_true, if_false,
      CADS.readSegmentationCore, hmax]
    rw [if_pos hmin]
  · intro kv hkv hneg
    have hne : m ≠ [] := by
      intro h0
      rw [h0] at hkv
      exact absurd hkv (List.not_mem_nil kv)
    have hkey : kv.1 ∈ m.map Prod.fst := List.mem_map_of_mem Prod.fst hkv
    have hmin : (CADS.pyMin (m.map Prod.fst)).getD 0 < 0 :=
      lt_of_le_of_lt (CADS.pyMin_getD_le _ _ hkey) hneg
    obtain ⟨mx, hmax⟩ :=
      CADS.pyMax_isSome_of_ne_nil (m.map Prod.fst) (by simpa using hne)
    simp only [CADS.readSegmentation, h1, h2, CADS.readSegmentationCore, hmax]
    rw [if_pos hmin]

/-- Witness for C6's amended theorem: with no subset, `negKeyMap`'s
negative key makes reading fail with the label-space error. -/
theorem c6_negative_label_space_error_witness :
    CADS.readSegmentation CADS.negKeyEnv ⟨[]⟩ "551" none =
      .error "Label values in class_map must be positive" :=
  (c6_negative_label_space_error CADS.negKeyEnv ⟨[]⟩ "551" 551 CADS.negKeyMap
    (by decide) rfl).2 ((-1 : Int), "bad_structure") (by simp [CADS.negKeyMap])
    (by norm_num)

namespace CADS

/-- Events accumulated by the terminology-application fold are log events
(beyond those already accumulated). -/
theorem foldl_setTerminology_events_log (cat : Catalog) (useStd : Bool)
    (deser : String → Option Resolve.TerminologyEntry)
    (types : List Resolve.TermTypeObject) :
    ∀ (lm : LabelMap) (s : Segmentation) (evs : List Event) (e : Event),
      e ∈ (lm.foldl (fun (acc : Segmentation × List Event) kv =>
            let r := setTerminology cat useStd deser types acc.1 kv.2 kv.2
            (r.1, acc.2 ++ r.2.map Event.log)) (s, evs)).2 →
      e ∈ evs ∨ ∃ msg, e = Event.log msg
  | [], _, _, _, h => Or.inl h
  | kv :: t, s, evs, e, h => by
    have hrec := foldl_setTerminology_events_log cat useStd deser types t
      (setTerminology cat useStd deser types s kv.2 kv.2).1
      (evs ++ (setTerminology cat useStd deser types s kv.2 kv.2).2.map Event.log)
      e h
    rcases hrec with hmem | hlog
    · rcases List.mem_append.mp hmem with hl | hr
      · exact Or.inl hl
      · rcases List.mem_map.mp hr with ⟨msg, _, heq⟩
        exact Or.inr ⟨msg, heq.symm⟩
    · exact Or.inr hlog

/-- The only labelmap-import event emitted by the found-artifact path is
for the first glob match. -/
theorem importLabelmap_mem_found (env : Env) (s : Segmentation)
    (task : String) (lm : LabelMap) (mx : Int) (f : String)
    (rest : List String) (g : String)
    (h : Event.importLabelmap g ∈
      (readSegmentationFound env s task lm mx f rest).events) :
    g = f := by
  simp only [readSegmentationFound] at h
  rcases List.mem_append.mp h with h1 | hfold
  · rcases List.mem_append.mp h1 with h2 | hrem
    · rcases List.mem_append.mp h2 with hwarn | hAI
      · cases hre : rest.isEmpty <;> simp [hre] at hwarn
      · simpa using hAI
    · rcases List.mem_map.mp hrem with ⟨x, _, hx⟩
      exact Event.noConfusion hx
  · rcases foldl_setTerminology_events_log env.cat env.useStandardSegmentNames
        env.deser env.termTypes lm _ [] _ hfold with hmem | ⟨msg, hmsg⟩
    · exact absurd hmem (List.not_mem_nil _)
    · exact Event.noConfusion hmsg

end CADS

/-- C7: with a well-formed (non-empty, non-negative) label mapping, a glob
with zero matches makes `readSegmentation` log the missing-artifact error
and return `False` (no exception), the container untouched, and
`processVolume` return the empty result list; a glob with several matches
makes it log a warning naming every candidate, log which file it picked,
and import deterministically the first match of the glob result. -/
theorem c7_artifact_glob_handling (env : CADS.Env) (node : CADS.SegNode)
    (task : String) (taskId : Int) (m : CADS.LabelMap)
    (h1 : CADS.pyInt task = some taskId)
    (h2 : env.labelmapsFor taskId = some m)
    (hne : m ≠ [])
    (hmin : ¬ (CADS.pyMin (m.map Prod.fst)).getD 0 < 0) :
    (env.globFor task = [] →
      CADS.readSegmentation env node.seg task none =
        .ok ⟨false,
             [CADS.Event.log ("Error: No segmentation file found for task " ++ task)],
             node.seg⟩ ∧
      CADS.processVolume env node task none =
        .ok ([], [CADS.Event.writeInputFile,
                  CADS.Event.log ("Error: No segmentation file found for task " ++ task)])) ∧
    (∀ f1 f2 fs, env.globFor task = f1 :: f2 :: fs →
      ∃ r : CADS.ReadResult,
        CADS.readSegmentation env node.seg task none = .ok r ∧
        r.returnValue = true ∧
        CADS.Event.importLabelmap f1 ∈ r.events ∧
        (∀ g, CADS.Event.importLabelmap g ∈ r.events → g = f1) ∧
        CADS.Event.log ("Warning: Multiple segmentation files found for task "
          ++ task ++ ":") ∈ r.events ∧
        (∀ g, g ∈ f1 :: f2 :: fs → CADS.Event.log ("  - " ++ g) ∈ r.events) ∧
        CADS.Event.log ("Using the first file: " ++ f1) ∈ r.events) := by
  obtain ⟨mx, hmax⟩ := CADS.pyMax_isSome_of_ne_nil (m.map Prod.fst) (by simpa using hne)
  constructor
  · intro hg
    have hread : CADS.readSegmentation env node.seg task none =
        .ok ⟨false,
             [CADS.Event.log ("Error: No segmentation file found for task " ++ task)],
             node.seg⟩ := by
      simp only [CADS.readSegmentation, h1, h2, CADS.readSegmentationCore, hmax]
      rw [if_neg hmin, hg]
    refine ⟨hread, ?_⟩
    simp [CADS.processVolume, hread]
  · intro f1 f2 fs hg
    have hread : CADS.readSegmentation env node.seg task none =
        .ok (CADS.readSegmentationFound env node.seg task m mx f1 (f2 :: fs)) := by
      simp only [CADS.readSegmentation, h1, h2, CADS.readSegmentationCore, hmax]
      rw [if_neg hmin, hg]
    refine ⟨CADS.readSegmentationFound env node.seg task m mx f1 (f2 :: fs),
      hread, rfl, ?_, ?_, ?_, ?_, ?_⟩
    · simp only [CADS.readSegmentationFound, List.isEmpty_cons, Bool.false_eq_true,
        if_false]
      exact List.mem_append.mpr (Or.inl (List.mem_append.mpr (Or.inl
        (List.mem_append.mpr (Or.inr
          (List.mem_cons_of_mem _ (List.mem_cons_self _ _)))))))
    · intro g hgmem
      exact CADS.importLabelmap_mem_found env node.seg task m mx f1 (f2 :: fs) g hgmem
    · simp only [CADS.readSegmentationFound, List.isEmpty_cons, Bool.false_eq_true,
        if_false]
      exact List.mem_append.mpr (Or.inl (List.mem_append.mpr (Or.inl
        (List.mem_append.mpr (Or.inl (List.mem_cons_self _ _))))))
    · intro g hgmem
      have hmm : CADS.Event.log ("  - " ++ g) ∈
          (f1 :: f2 :: fs).map (fun x => CADS.Event.log ("  - " ++ x)) :=
        List.mem_map_of_mem _ hgmem
      simp only [CADS.readSegmentationFound, List.isEmpty_cons, Bool.false_eq_true,
        if_false]
      exact List.mem_append.mpr (Or.inl (List.mem_append.mpr (Or.inl
        (List.mem_append.mpr (Or.inl (List.mem_cons_of_mem _
          (List.mem_append.mpr (Or.inl hmm))))))))
    · simp only [CADS.readSegmentationFound, List.isEmpty_cons, Bool.false_eq_true,
        if_false]
      exact List.mem_append.mpr (Or.inl (List.mem_append.mpr (Or.inl
        (List.mem_append.mpr (Or.inl (List.mem_cons_of_mem _
          (List.mem_append.mpr (Or.inr (List.mem_singleton.mpr rfl)))))))))

namespace CADS

/-- Environment for task `552` whose artifact glob matches nothing. -/
def globZeroEnv : Env :=
  { cat := []
    useStandardSegmentNames := true
    deser := fun _ => none
    termTypes := []
    labelmapsFor := fun taskId =>
      if taskId = 552 then some [(1, "vertebrae_C1")] else none
    globFor := fun _ => []
    readData := fun s _ => s }

/-- Environment for task `552` whose artifact glob matches two files. -/
def globMultiEnv : Env :=
  { globZeroEnv with globFor := fun _ => ["a_552.nii.gz", "b_552.nii.gz"] }

end CADS

/-- Witness for C7 at concrete environments: one with an empty glob result
and one with two candidate artifacts. -/
theorem c7_artifact_glob_handling_witness :
    (CADS.readSegmentation CADS.globZeroEnv
        (⟨0, "Out", [], ⟨[]⟩⟩ : CADS.SegNode).seg "552" none =
        .ok ⟨false,
             [CADS.Event.log ("Error: No segmentation file found for task " ++ "552")],
             (⟨0, "Out", [], ⟨[]⟩⟩ : CADS.SegNode).seg⟩ ∧
      CADS.processVolume CADS.globZeroEnv ⟨0, "Out", [], ⟨[]⟩⟩ "552" none =
        .ok ([], [CADS.Event.writeInputFile,
                  CADS.Event.log ("Error: No segmentation file found for task " ++ "552")])) ∧
    (∃ r : CADS.ReadResult,
      CADS.readSegmentation CADS.globMultiEnv
          (⟨0, "Out", [], ⟨[]⟩⟩ : CADS.SegNode).seg "552" none = .ok r ∧
      r.returnValue = true ∧
      CADS.Event.importLabelmap "a_552.nii.gz" ∈ r.events ∧
      (∀ g, CADS.Event.importLabelmap g ∈ r.events → g = "a_552.nii.gz") ∧
      CADS.Event.log ("Warning: Multiple segmentation files found for task "
        ++ "552" ++ ":") ∈ r.events ∧
      (∀ g, g ∈ "a_552.nii.gz" :: "b_552.nii.gz" :: [] →
        CADS.Event.log ("  - " ++ g) ∈ r.events) ∧
      CADS.Event.log ("Using the first file: " ++ "a_552.nii.gz") ∈ r.events) :=
  ⟨(c7_artifact_glob_handling CADS.globZeroEnv ⟨0, "Out", [], ⟨[]⟩⟩ "552" 552
      [(1, "vertebrae_C1")] (by decide) rfl (by decide) (by decide)).1 rfl,
   (c7_artifact_glob_handling CADS.globMultiEnv ⟨0, "Out", [], ⟨[]⟩⟩ "552" 552
      [(1, "vertebrae_C1")] (by decide) rfl (by decide) (by decide)).2
     "a_552.nii.gz" "b_552.nii.gz" [] rfl⟩

/-- C8: a task id that is neither `'all'` nor an integer string matching a
registered task makes `process` fail before the temporary folder is
created and before any other side effect: the result is an error with an
empty effect trace, for every subset and device flag. -/
theorem c8_invalid_task_rejected (env : CADS.Env) (node : CADS.SegNode)
    (cpu : Bool) (subset : Option (List String)) (t : String)
    (h0 : t ≠ "") (hall : t ≠ "all")
    (hbad : ∀ taskId, CADS.pyInt t = some taskId →
      CADS.lookupTask (toString taskId) = none) :
    CADS.process env true node cpu (some t) subset =
      (.error ("Invalid task ID format: " ++ t ++ ". Must be a number or 'all'"),
       []) := by
  cases hp : CADS.pyInt t with
  | none => simp [CADS.process, hp, hall, h0]
  | some taskId =>
    have hl := hbad taskId hp
    simp [CADS.process, hp, hall, h0, hl]

/-- Witness for C8: task id `"999"` parses as an integer but is not
registered; `process` fails with no effects. -/
theorem c8_invalid_task_rejected_witness :
    CADS.process CADS.globZeroEnv true ⟨0, "Out", [], ⟨[]⟩⟩ false
      (some "999") none =
      (.error ("Invalid task ID format: " ++ "999" ++ ". Must be a number or 'all'"),
       []) :=
  c8_invalid_task_rejected CADS.globZeroEnv ⟨0, "Out", [], ⟨[]⟩⟩ false none "999"
    (by decide) (by decide)
    (fun taskId h => by
      have h9 : CADS.pyInt "999" = some 999 := by decide
      rw [h9] at h
      injection h with h'
      rw [← h']
      decide)

/-- C10: calling `process` with the composite task `'all'` and any
non-empty subset fails during up-front subset validation — `int('all')`
raises inside the validation `try` block — with the exact message
`"Cannot validate subset for task: all"` and an empty effect trace: no
temporary folder, no subtask processing. -/
theorem c10_all_with_subset_fails (env : CADS.Env) (node : CADS.SegNode)
    (cpu : Bool) (S : List String) (hS : S ≠ []) :
    CADS.process env true node cpu (some "all") (some S) =
      (.error "Cannot validate subset for task: all", []) := by
  have hSm : S.isEmpty = false := by
    cases S with
    | nil => exact absurd rfl hS
    | cons a t => rfl
  have hp : CADS.pyInt "all" = none := by decide
  simp [CADS.process, hp, hSm]

/-- Witness for C10 with the subset `["heart"]`. -/
theorem c10_all_with_subset_fails_witness :
    CADS.process CADS.globZeroEnv true ⟨0, "Out", [], ⟨[]⟩⟩ false
      (some "all") (some ["heart"]) =
      (.error "Cannot validate subset for task: all", []) :=
  c10_all_with_subset_fails CADS.globZeroEnv ⟨0, "Out", [], ⟨[]⟩⟩ false
    ["heart"] (by decide)

namespace CADS

/-- Environment for task `551` with one structure, `kidney_left`, whose
catalog display label is `Kidney`. -/
def kidneyCatalogEnv : Env :=
  { cat := [("kidney_left", ⟨"TSTR", "Kidney"⟩)]
    useStandardSegmentNames := true
    deser := fun _ => none
    termTypes := []
    labelmapsFor := fun taskId =>
      if taskId = 551 then some [(1, "kidney_left")] else none
    globFor := fun _ => ["s_551.nii.gz"]
    readData := fun s _ => s }

end CADS

/-- C1 counterexample: subset validation for a non-composite task neither
names the unresolvable entries nor translates display labels.  Two
different invalid subsets produce the identical generic error
`"Cannot validate subset for task: 551"` (so the message cannot be naming
the entries; the inner `ValueError` listing them is caught by the
enclosing `except` clause), and the subset `["Kidney"]` — the display
label that does translate to the structure name `kidney_left` present in
task 551's label space — is also rejected, because the check compares
subset entries literally against structure names.  Effects are empty in
all three runs. -/
theorem c1_counterexample :
    CADS.process CADS.kidneyCatalogEnv true ⟨0, "Output", [], ⟨[]⟩⟩ false
        (some "551") (some ["nonexistent_organ"]) =
      (.error "Cannot validate subset for task: 551", []) ∧
    CADS.process CADS.kidneyCatalogEnv true ⟨0, "Output", [], ⟨[]⟩⟩ false
        (some "551") (some ["another_missing_organ"]) =
      (.error "Cannot validate subset for task: 551", []) ∧
    CADS.getSlicerLabel CADS.kidneyCatalogEnv.cat "kidney_left" = "Kidney" ∧
    CADS.kidneyCatalogEnv.labelmapsFor 551 = some [(1, "kidney_left")] ∧
    CADS.process CADS.kidneyCatalogEnv true ⟨0, "Output", [], ⟨[]⟩⟩ false
        (some "551") (some ["Kidney"]) =
      (.error "Cannot validate subset for task: 551", []) :=
  ⟨rfl, rfl, rfl, rfl, rfl⟩

/-- C1 amended: for a non-composite registered task and a non-empty
subset, `process` validates by literal membership of each subset entry in
the task's structure-name values (no display-label translation); when some
entry is not a structure name it fails before any side effect (empty
effect trace, no temporary folder), but with the generic message
`"Cannot validate subset for task: {task}"` — the inner `InvalidSubset`
error naming the unresolvable entries is swallowed by the surrounding
`except (ValueError, KeyError)` clause. -/
theorem c1_subset_validation_generic_error (env : CADS.Env)
    (node : CADS.SegNode) (cpu : Bool) (t : String) (taskId : Int)
    (m : CADS.LabelMap) (S : List String)
    (h0 : t ≠ "") (hall : t ≠ "all")
    (hp : CADS.pyInt t = some taskId)
    (hreg : (CADS.lookupTask (toString taskId)).isSome = true)
    (hm : env.labelmapsFor taskId = some m)
    (hSne : S.isEmpty = false)
    (hinv : (S.filter (fun organ =>
      !((m.map Prod.snd).contains organ))).isEmpty = false) :
    CADS.process env true node cpu (some t) (some S) =
      (.error ("Cannot validate subset for task: " ++ t), []) := by
  simp [CADS.process, hp, hall, h0, hreg, hm, hSne]
  rw [if_neg (show ¬((List.filter (fun organ =>
    !((m.map Prod.snd).contains organ)) S).isEmpty = true) from by
      rw [hinv]; exact Bool.false_ne_true)]

/-- Witness for C1's amended theorem at the `["nonexistent_organ"]`
subset against task `551`. -/
theorem c1_subset_validation_generic_error_witness :
    CADS.process CADS.kidneyCatalogEnv true ⟨0, "Output", [], ⟨[]⟩⟩ false
      (some "551") (some ["nonexistent_organ"]) =
      (.error ("Cannot validate subset for task: " ++ "551"), []) :=
  c1_subset_validation_generic_error CADS.kidneyCatalogEnv
    ⟨0, "Output", [], ⟨[]⟩⟩ false "551" 551 [(1, "kidney_left")]
    ["nonexistent_organ"] (by decide) (by decide) (by decide) (by decide)
    rfl rfl (by decide)

/-- C5: composite processing visits the fixed subtask sequence
`551`..`559` in order; when every per-subtask `processVolume` call
succeeds with result `f i`, the composite result is exactly the
concatenation of the per-subtask node lists in subtask order (a skipped
subtask contributes its empty list without stopping or reordering the
rest); the destination for subtask `0` is the supplied container (same
identity) and every later subtask gets a fresh container (identity
distinct from the supplied one), each named `"{base name}: {task title}"`. -/
theorem c5_composite_order_and_containers (env : CADS.Env)
    (node : CADS.SegNode) (subset : Option (List String))
    (f : Nat → List CADS.SegNode × List CADS.Event)
    (h : ∀ it ∈ CADS.subtasksAll.enum,
      CADS.processVolume env
        (CADS.subtaskNode node (CADS.segBaseName node) it.1 it.2) it.2 subset =
        .ok (f it.1)) :
    CADS.processAllTasks env node subset =
      .ok ((f 0).1 ++ (f 1).1 ++ (f 2).1 ++ (f 3).1 ++ (f 4).1 ++ (f 5).1
        ++ (f 6).1 ++ (f 7).1 ++ (f 8).1) ∧
    CADS.subtasksAll =
      ["551", "552", "553", "554", "555", "556", "557", "558", "559"] ∧
    (∀ it ∈ CADS.subtasksAll.enum,
      (CADS.subtaskNode node (CADS.segBaseName node) it.1 it.2).name =
        CADS.segBaseName node ++ ": " ++ CADS.taskTitle it.2) ∧
    (CADS.subtaskNode node (CADS.segBaseName node) 0 "551").id = node.id ∧
    (∀ it ∈ CADS.subtasksAll.enum, it.1 ≠ 0 →
      (CADS.subtaskNode node (CADS.segBaseName node) it.1 it.2).id ≠ node.id) := by
  have hs : CADS.subtasksAll =
      ["551", "552", "553", "554", "555", "556", "557", "558", "559"] := rfl
  have he : CADS.subtasksAll.enum =
      [(0, "551"), (1, "552"), (2, "553"), (3, "554"), (4, "555"),
       (5, "556"), (6, "557"), (7, "558"), (8, "559")] := rfl
  have h0 := h (0, "551") (by rw [he]; simp)
  have h1 := h (1, "552") (by rw [he]; simp)
  have h2 := h (2, "553") (by rw [he]; simp)
  have h3 := h (3, "554") (by rw [he]; simp)
  have h4 := h (4, "555") (by rw [he]; simp)
  have h5 := h (5, "556") (by rw [he]; simp)
  have h6 := h (6, "557") (by rw [he]; simp)
  have h7 := h (7, "558") (by rw [he]; simp)
  have h8 := h (8, "559") (by rw [he]; simp)
  refine ⟨?_, hs, ?_, rfl, ?_⟩
  · simp [CADS.processAllTasks, hs, CADS.runSubtasks,
      h0, h1, h2, h3, h4, h5, h6, h7, h8, List.append_assoc]
  · intro it hit
    rw [he] at hit
    fin_cases hit <;> rfl
  · intro it hit hne
    rw [he] at hit
    fin_cases hit
    · exact absurd rfl hne
    all_goals simp [CADS.subtaskNode]
    all_goals omega

namespace CADS

/-- Environment in which every task's label dictionary holds a single
structure that no subset will select. -/
def c5SkipEnv : Env :=
  { cat := []
    useStandardSegmentNames := true
    deser := fun _ => none
    termTypes := []
    labelmapsFor := fun _ => some [(1, "structure_x")]
    globFor := fun _ => []
    readData := fun s _ => s }

/-- The per-subtask outcome in `c5SkipEnv` with subset `["nomatch"]`:
every subtask is skipped (empty node list, skip log). -/
def c5SkipResult (i : Nat) : List SegNode × List Event :=
  ([], [Event.writeInputFile,
        Event.log ("Task " ++ subtasksAll.getD i ""
          ++ ": No selected targets were found in the label map, skipping...")])

end CADS

/-- Witness for C5: all nine subtasks skip (empty filtered mapping), the
composite run still visits all of them and returns the concatenation of
nine empty lists. -/
theorem c5_composite_order_and_containers_witness :
    CADS.processAllTasks CADS.c5SkipEnv ⟨0, "Output", [], ⟨[]⟩⟩
        (some ["nomatch"]) =
      .ok ((CADS.c5SkipResult 0).1 ++ (CADS.c5SkipResult 1).1
        ++ (CADS.c5SkipResult 2).1 ++ (CADS.c5SkipResult 3).1
        ++ (CADS.c5SkipResult 4).1 ++ (CADS.c5SkipResult 5).1
        ++ (CADS.c5SkipResult 6).1 ++ (CADS.c5SkipResult 7).1
        ++ (CADS.c5SkipResult 8).1) ∧
    CADS.subtasksAll =
      ["551", "552", "553", "554", "555", "556", "557", "558", "559"] ∧
    (∀ it ∈ CADS.subtasksAll.enum,
      (CADS.subtaskNode ⟨0, "Output", [], ⟨[]⟩⟩
        (CADS.segBaseName ⟨0, "Output", [], ⟨[]⟩⟩) it.1 it.2).name =
        CADS.segBaseName ⟨0, "Output", [], ⟨[]⟩⟩ ++ ": " ++ CADS.taskTitle it.2) ∧
    (CADS.subtaskNode ⟨0, "Output", [], ⟨[]⟩⟩
      (CADS.segBaseName ⟨0, "Output", [], ⟨[]⟩⟩) 0 "551").id =
      (⟨0, "Output", [], ⟨[]⟩⟩ : CADS.SegNode).id ∧
    (∀ it ∈ CADS.subtasksAll.enum, it.1 ≠ 0 →
      (CADS.subtaskNode ⟨0, "Output", [], ⟨[]⟩⟩
        (CADS.segBaseName ⟨0, "Output", [], ⟨[]⟩⟩) it.1 it.2).id ≠
        (⟨0, "Output", [], ⟨[]⟩⟩ : CADS.SegNode).id) :=
  c5_composite_order_and_containers CADS.c5SkipEnv ⟨0, "Output", [], ⟨[]⟩⟩
    (some ["nomatch"]) CADS.c5SkipResult (by
      intro it hit
      have he : CADS.subtasksAll.enum =
          [(0, "551"), (1, "552"), (2, "553"), (3, "554"), (4, "555"),
           (5, "556"), (6, "557"), (7, "558"), (8, "559")] := rfl
      rw [he] at hit
      fin_cases hit <;> rfl)

/-- Witness for C9 at a concrete catalog, container and terminology
service. -/
theorem c9_set_terminology_behavior_witness :
    ∃ seg',
      CADS.getSegment
        (CADS.setTerminology [("kidney_left", ⟨"TSTR", "Kidney"⟩)] true
          (fun _ => none) []
          ⟨[("kidney_left", ⟨"kidney_left", (0, 0, 0), []⟩)]⟩
          "kidney_left" "kidney_left").1
        "kidney_left" = some seg' ∧
      CADS.getTag seg' CADS.terminologyEntryTagName = some "TSTR" ∧
      (∀ label color,
        CADS.Resolve.getSegmentLabelColor (fun _ => none) [] "TSTR"
            = .ok (label, color) →
          seg'.color = color ∧
          seg'.name = (if true then label else "kidney_left") ∧
          (CADS.setTerminology [("kidney_left", ⟨"TSTR", "Kidney"⟩)] true
            (fun _ => none) []
            ⟨[("kidney_left", ⟨"kidney_left", (0, 0, 0), []⟩)]⟩
            "kidney_left" "kidney_left").2 = []) ∧
      (∀ e,
        CADS.Resolve.getSegmentLabelColor (fun _ => none) [] "TSTR"
            = .error e →
          seg'.name = "kidney_left" ∧ seg'.color = (0, 0, 0) ∧
          (CADS.setTerminology [("kidney_left", ⟨"TSTR", "Kidney"⟩)] true
            (fun _ => none) []
            ⟨[("kidney_left", ⟨"kidney_left", (0, 0, 0), []⟩)]⟩
            "kidney_left" "kidney_left").2 = [e]) :=
  c9_set_terminology_behavior [("kidney_left", ⟨"TSTR", "Kidney"⟩)] true
    (fun _ => none) [] ⟨[("kidney_left", ⟨"kidney_left", (0, 0, 0), []⟩)]⟩
    "kidney_left" "kidney_left" ⟨"kidney_left", (0, 0, 0), []⟩ ⟨"TSTR", "Kidney"⟩
    rfl rfl
